import Mathlib

/-!
Verification of the loan-copilot agent backend.

Shallow embedding of the Python sources:
  backend/loan_agent/initialization_agent.py
  backend/loan_agent/agent.py
  backend/main.py

External collaborators (the Vertex AI resource registry, the cloud storage
client, the session store, and the hosted model runner) are modelled as
oracle parameters; the repository code around them is translated directly.
-/

set_option autoImplicit false

namespace LoanCopilot

/-! ## Session state (a Python dict restricted to string keys and values)

`session.state` in the source is a Python dict.  We embed it as an
association list with dict semantics: lookup finds the first (unique)
binding, deletion removes the binding, assignment replaces in place or
appends.  A well-formed dict has no duplicate keys. -/

/-- The mutable key-value store owned by a session, `session.state` in the source. -/
abbrev SessionState := List (String × String)

/-- Membership / subscript read: `state[k]`, and the test `k in state`. -/
def stateLookup (s : SessionState) (k : String) : Option String :=
  match s with
  | [] => none
  | (k2, v) :: rest => if k2 = k then some v else stateLookup rest k

/-- Deletion: `del state[k]`. -/
def stateErase (s : SessionState) (k : String) : SessionState :=
  match s with
  | [] => []
  | (k2, v) :: rest =>
    if k2 = k then stateErase rest k else (k2, v) :: stateErase rest k

/-- Assignment: `state[k] = v` (replace in place if present, append if absent). -/
def stateInsert (s : SessionState) (k v : String) : SessionState :=
  match s with
  | [] => [(k, v)]
  | (k2, v2) :: rest =>
    if k2 = k then (k, v) :: rest else (k2, v2) :: stateInsert rest k v

/-- A session from the session-store collaborator: `session.id` and `session.state`. -/
structure Session where
  id : String
  state : SessionState

/-! ## initialization_agent.py: get_guideline_cache_resource_id -/

/-- Outcome of `CachedContent(name=stored_id)` (initialization_agent.py line 55),
the validation call against the external Vertex AI resource registry:
it either succeeds, raises `exceptions.NotFound`, raises `ValueError`,
or raises some other unexpected exception. -/
inductive ValidationResult where
  | valid
  | notFound
  | valueError
  | unexpected (msg : String)
deriving DecidableEq

/-- The handle minted by the creation branch (initialization_agent.py line 79):
the f-string `guideline_cache_resource_id_for_session_{session.id}:{guideline_file_name}`. -/
def mintResourceId (sessionId fileName : String) : String :=
  "guideline_cache_resource_id_for_session_" ++ sessionId ++ ":" ++ fileName

/-- Result of one call to `get_guideline_cache_resource_id`: the returned
string, the session state after the call, and whether a missing session was
created (initialization_agent.py lines 40-46). -/
structure CallResult where
  returned : String
  finalState : SessionState
  createdSession : Bool
deriving DecidableEq

/-- The `session_service.get_session` / `create_session` sequence
(initialization_agent.py lines 37-46): if the store holds no session for the
triple, a fresh session with the requested id and empty state is created. -/
def resolveSession (session_id : String) (storeLookup : Option Session) : Session :=
  match storeLookup with
  | some s => s
  | none => { id := session_id, state := [] }

/-- Embedding of `get_guideline_cache_resource_id` (initialization_agent.py
lines 27-81).  `storeLookup` is the session-store collaborator response for
the (app, user, session_id) triple; `validate` is the behaviour of the
`CachedContent` registry call on a given stored id.

Both `except` clauses (lines 63-73) perform the same state effect — delete
the stale id and fall through to creation — so they are one wildcard branch. -/
def get_guideline_cache_resource_id (guideline_file_name session_id : String)
    (storeLookup : Option Session) (validate : String → ValidationResult) :
    CallResult :=
  let session := resolveSession session_id storeLookup
  match stateLookup session.state "resource_id" with
  | some stored_id =>
    match validate stored_id with
    | ValidationResult.valid =>
      { returned := stored_id
        finalState := session.state
        createdSession := storeLookup.isNone }
    | _ =>
      { returned := mintResourceId session.id guideline_file_name
        finalState :=
          stateInsert (stateErase session.state "resource_id") "resource_id"
            (mintResourceId session.id guideline_file_name)
        createdSession := storeLookup.isNone }
  | none =>
    { returned := mintResourceId session.id guideline_file_name
      finalState :=
        stateInsert session.state "resource_id"
          (mintResourceId session.id guideline_file_name)
      createdSession := storeLookup.isNone }

/-! ## initialization_agent.py: _list_gcs_files and create_loan_initialization_agent -/

/-- Embedding of `_list_gcs_files` (initialization_agent.py lines 84-95).
`listBlobs` is the storage collaborator: given bucket name and blob name
prefix it returns the blob names, or raises.  The Python body has no
try/except, so a collaborator error propagates through `Except`. -/
def _list_gcs_files (listBlobs : String → String → Except String (List String))
    (gcs_path_param : String) : Except String (List String) :=
  let path_parts := (gcs_path_param.replace "gs://" "").splitOn "/"
  let bucket_name := path_parts.headD ""
  let blobPrefix := String.intercalate "/" path_parts.tail
  listBlobs bucket_name blobPrefix

/-- The constant `GCS_PATH` (initialization_agent.py line 100). -/
def GCS_PATH : String := "gs://copilot_loan_guidelines/guidelines/"

/-- The agent value built by `create_loan_initialization_agent`
(initialization_agent.py lines 143-154); only the fields the claims touch
are carried (the instruction prompt text is opaque to every claim). -/
structure LoanInitializationAgentSpec where
  name : String
  file_names_str : String
deriving DecidableEq

/-- Embedding of `create_loan_initialization_agent` (initialization_agent.py
lines 99-154): it lists the catalog at `GCS_PATH` and builds the locator
agent.  The listing call is not guarded, so a listing error propagates and
no agent (hence no ambiguity response) is produced. -/
def create_loan_initialization_agent
    (listBlobs : String → String → Except String (List String)) :
    Except String LoanInitializationAgentSpec :=
  match _list_gcs_files listBlobs GCS_PATH with
  | Except.error e => Except.error e
  | Except.ok file_names =>
    Except.ok
      { name := "loan_initialization_agent"
        file_names_str := String.intercalate "\n" file_names }

/-! ## agent.py: create_dynamic_main_agent and run_underwriting_workflow -/

/-- A sub-agent built by `create_dynamic_main_agent` (agent.py lines 18-70):
the fields the claims touch.  Instruction texts are the f-strings from the
source with the long static prompt bodies carried as opaque constants. -/
structure SubAgentSpec where
  name : String
  instruction : String
deriving DecidableEq

/-- The main agent graph built by `create_dynamic_main_agent`
(agent.py lines 72-81). -/
structure MainAgentSpec where
  name : String
  description : String
  instruction : String
  sub_agents : List SubAgentSpec
deriving DecidableEq

/-- The static body of the pre-qualification sub-agent prompt
(agent.py lines 23-59); its content is opaque to every claim. -/
def preQualPromptBody : String :=
  "# Role ... (static prompt text of agent.py lines 23-59, opaque here)"

/-- Embedding of `create_dynamic_main_agent` (agent.py lines 13-81): a pure
construction of the three-agent graph, with the resource id interpolated
into each instruction exactly where the f-strings put it. -/
def create_dynamic_main_agent (resource_id : String) : MainAgentSpec :=
  let pre_qual_agent : SubAgentSpec :=
    { name := "pre_qualification_sub_agent"
      instruction := "Operating on Guideline Cache: " ++ resource_id ++ ". "
        ++ preQualPromptBody }
  let underwriting_agent : SubAgentSpec :=
    { name := "underwriting_sub_agent"
      instruction := "Operating on Guideline Cache: " ++ resource_id ++ ". "
        ++ "Verify bank statements and flag abnormal cashflow." }
  { name := "main_business_agent"
    description := "Manager for the loan process."
    instruction := "You are the Loan Manager using cache " ++ resource_id ++ ". "
      ++ "Delegate tasks to pre_qualification_sub_agent or underwriting_sub_agent."
    sub_agents := [pre_qual_agent, underwriting_agent] }

/-- One part of an event content, `part.text` in the source. -/
structure EventPart where
  text : String
deriving DecidableEq

/-- Content of a runner event, `event.content.parts` in the source. -/
structure EventContent where
  parts : List EventPart
deriving DecidableEq

/-- A runner event; `content` is `None`-able in the vendor SDK. -/
structure RunnerEvent where
  content : Option EventContent
deriving DecidableEq

/-- The message text with which Python renders the `AttributeError` raised by
`response_events[-1].content.parts` when `content` is `None`; it is produced
inside the `try` of agent.py lines 98-108 and hence caught there. -/
def noneContentAttrMsg : String :=
  "AttributeError: NoneType object has no attribute parts"

/-- Embedding of `run_underwriting_workflow` (agent.py lines 84-108).
`runDebug` is the nested `InMemoryRunner.run_debug` collaborator: given the
dynamically built agent, the user query and the nested session id, it yields
the event list or raises.  Agent construction and runner creation (lines
92-95) are pure and sit outside the `try`, exactly as in the source; every
fallible step (the run and the event field accesses) sits inside it. -/
def run_underwriting_workflow
    (runDebug : MainAgentSpec → String → String → Except String (List RunnerEvent))
    (resource_id user_query : String) : String :=
  let dynamic_agent := create_dynamic_main_agent resource_id
  match runDebug dynamic_agent user_query ("nested_" ++ resource_id) with
  | Except.error e => "An error occurred during underwriting: " ++ e
  | Except.ok response_events =>
    match response_events.getLast? with
    | none => "No response text found from underwriting workflow."
    | some lastEvent =>
      match lastEvent.content with
      | none => "An error occurred during underwriting: " ++ noneContentAttrMsg
      | some c =>
        match c.parts with
        | [] => "No response text found from underwriting workflow."
        | p :: _ => p.text

/-! ## main.py: invoke_agent -/

/-- A Python exception as it reaches the HTTP boundary: its rendered text
and the traceback string `traceback.format_exc()` produces. -/
structure PyException where
  msg : String
  traceback : String
deriving DecidableEq

/-- The JSON shapes the endpoint can answer with: `{response}` or
`{error, traceback}` — a tagged union, never both. -/
inductive InvokeResponse where
  | success (response : String)
  | failure (error : String) (traceback : String)
deriving DecidableEq

/-- Embedding of `invoke_agent` (main.py lines 19-29).  `outcome` is what
`await get_agent_response(...)` does: return a string or raise.  The body is
one try/except over that call, so the endpoint itself never raises. -/
def invoke_agent (outcome : Except PyException String) : InvokeResponse :=
  match outcome with
  | Except.ok response => InvokeResponse.success response
  | Except.error e =>
    InvokeResponse.failure ("An error occurred: " ++ e.msg) e.traceback

/-! ## Dictionary lemmas -/

theorem stateLookup_stateErase_self (s : SessionState) (k : String) :
    stateLookup (stateErase s k) k = none := by
  induction s with
  | nil => rfl
  | cons hd tl ih =>
    obtain ⟨k2, v⟩ := hd
    by_cases h : k2 = k
    · simpa [stateErase, h] using ih
    · simp [stateErase, stateLookup, h, ih]

theorem stateLookup_stateInsert_self (s : SessionState) (k v : String) :
    stateLookup (stateInsert s k v) k = some v := by
  induction s with
  | nil => simp [stateInsert, stateLookup]
  | cons hd tl ih =>
    obtain ⟨k2, v2⟩ := hd
    by_cases h : k2 = k
    · simp [stateInsert, h, stateLookup]
    · simp [stateInsert, h, stateLookup, ih]

theorem stateLookup_stateErase_ne (s : SessionState) (k k2 : String) (h : k2 ≠ k) :
    stateLookup (stateErase s k) k2 = stateLookup s k2 := by
  induction s with
  | nil => rfl
  | cons hd tl ih =>
    obtain ⟨k3, v⟩ := hd
    by_cases h3 : k3 = k
    · simp [stateErase, stateLookup, h3, Ne.symm h, ih]
    · by_cases h32 : k3 = k2 <;> simp [stateErase, stateLookup, h3, h32, h, ih]

theorem stateLookup_stateInsert_ne (s : SessionState) (k k2 v : String) (h : k2 ≠ k) :
    stateLookup (stateInsert s k v) k2 = stateLookup s k2 := by
  induction s with
  | nil => simp [stateInsert, stateLookup, Ne.symm h]
  | cons hd tl ih =>
    obtain ⟨k3, v2⟩ := hd
    by_cases h3 : k3 = k
    · simp [stateInsert, stateLookup, h3, Ne.symm h]
    · by_cases h32 : k3 = k2 <;> simp [stateInsert, stateLookup, h3, h32, h, ih]

theorem stateErase_eq_of_lookup_none (s : SessionState) (k : String)
    (h : stateLookup s k = none) : stateErase s k = s := by
  induction s with
  | nil => rfl
  | cons hd tl ih =>
    obtain ⟨k2, v⟩ := hd
    by_cases h2 : k2 = k
    · simp [stateLookup, h2] at h
    · rw [stateLookup, if_neg h2] at h
      simp [stateErase, h2, ih h]

theorem mem_keys_stateInsert (s : SessionState) (k v a : String) :
    a ∈ (stateInsert s k v).map Prod.fst ↔ a ∈ s.map Prod.fst ∨ a = k := by
  induction s with
  | nil => simp [stateInsert]
  | cons hd tl ih =>
    obtain ⟨k2, v2⟩ := hd
    by_cases h2 : k2 = k
    · subst h2
      simp [stateInsert]
      tauto
    · simp [stateInsert, h2, ih]
      tauto

theorem keys_nodup_stateInsert (s : SessionState) (k v : String)
    (hnone : stateLookup s k = none) (hnd : (s.map Prod.fst).Nodup) :
    ((stateInsert s k v).map Prod.fst).Nodup := by
  induction s with
  | nil => simp [stateInsert]
  | cons hd tl ih =>
    obtain ⟨k2, v2⟩ := hd
    by_cases h2 : k2 = k
    · simp [stateLookup, h2] at hnone
    · rw [stateLookup, if_neg h2] at hnone
      rw [List.map_cons, List.nodup_cons] at hnd
      have hk2 : k2 ∉ (stateInsert tl k v).map Prod.fst := by
        rw [mem_keys_stateInsert]
        rintro (hmem | heq)
        · exact hnd.1 hmem
        · exact h2 heq
      simp only [stateInsert, if_neg h2, List.map_cons, List.nodup_cons]
      exact ⟨hk2, ih hnone hnd.2⟩

theorem keys_stateErase_sublist (s : SessionState) (k : String) :
    ((stateErase s k).map Prod.fst).Sublist (s.map Prod.fst) := by
  induction s with
  | nil => simp [stateErase]
  | cons hd tl ih =>
    obtain ⟨k2, v⟩ := hd
    by_cases h2 : k2 = k
    · simp only [stateErase, if_pos h2, List.map_cons]
      exact ih.trans (List.sublist_cons_self _ _)
    · simp only [stateErase, if_neg h2, List.map_cons]
      exact ih.cons₂ k2

/-! ## Branch lemmas for get_guideline_cache_resource_id -/

theorem get_resource_id_valid (f sid stored : String) (sess : Session)
    (validate : String → ValidationResult)
    (h1 : stateLookup sess.state "resource_id" = some stored)
    (h2 : validate stored = ValidationResult.valid) :
    get_guideline_cache_resource_id f sid (some sess) validate =
      { returned := stored, finalState := sess.state, createdSession := false } := by
  simp only [get_guideline_cache_resource_id, resolveSession, h1, h2]
  rfl

theorem get_resource_id_expired (f sid stored : String) (sess : Session)
    (validate : String → ValidationResult)
    (h1 : stateLookup sess.state "resource_id" = some stored)
    (h2 : validate stored ≠ ValidationResult.valid) :
    get_guideline_cache_resource_id f sid (some sess) validate =
      { returned := mintResourceId sess.id f
        finalState :=
          stateInsert (stateErase sess.state "resource_id") "resource_id"
            (mintResourceId sess.id f)
        createdSession := false } := by
  cases hv : validate stored with
  | valid => exact absurd hv h2
  | notFound =>
    simp only [get_guideline_cache_resource_id, resolveSession, h1, hv]
    rfl
  | valueError =>
    simp only [get_guideline_cache_resource_id, resolveSession, h1, hv]
    rfl
  | unexpected msg =>
    simp only [get_guideline_cache_resource_id, resolveSession, h1, hv]
    rfl

theorem get_resource_id_create (f sid : String) (sess : Session)
    (validate : String → ValidationResult)
    (h : stateLookup sess.state "resource_id" = none) :
    get_guideline_cache_resource_id f sid (some sess) validate =
      { returned := mintResourceId sess.id f
        finalState :=
          stateInsert sess.state "resource_id" (mintResourceId sess.id f)
        createdSession := false } := by
  simp only [get_guideline_cache_resource_id, resolveSession, h]
  rfl

/-! ## Claim theorems -/

/-- C1 (counterexample): the claim says the regenerated handle is distinct
from the stale one.  Concretely: a first call for ("s1", "jumbo_v1.pdf")
caches the minted handle; the validator then reports not-found for it; the
next call for the same pair returns a handle EQUAL to the stale one, because
the creation branch mints deterministically from session id and filename. -/
theorem C1_distinct_handle_counterexample :
    (get_guideline_cache_resource_id "jumbo_v1.pdf" "s1" none
        (fun _ => ValidationResult.notFound)).finalState =
      [("resource_id", mintResourceId "s1" "jumbo_v1.pdf")] ∧
    (fun _ => ValidationResult.notFound) (mintResourceId "s1" "jumbo_v1.pdf") =
      ValidationResult.notFound ∧
    (get_guideline_cache_resource_id "jumbo_v1.pdf" "s1"
        (some { id := "s1"
                state := (get_guideline_cache_resource_id "jumbo_v1.pdf" "s1" none
                    (fun _ => ValidationResult.notFound)).finalState })
        (fun _ => ValidationResult.notFound)).returned =
      mintResourceId "s1" "jumbo_v1.pdf" :=
  ⟨rfl, rfl, rfl⟩

/-- C1 (amended): when validation of a cached handle reports not-found, the
next call for the same (S, F) removes the stale entry from session state
before regeneration, stores and returns the deterministically minted handle,
and that handle is distinct from the stale one exactly when the stale one is
not itself the mint of the same session id and filename. -/
theorem C1_stale_handle_regeneration (f sid stale : String) (sess : Session)
    (validate : String → ValidationResult)
    (h1 : stateLookup sess.state "resource_id" = some stale)
    (h2 : validate stale = ValidationResult.notFound) :
    (get_guideline_cache_resource_id f sid (some sess) validate).returned =
      mintResourceId sess.id f ∧
    stateLookup (stateErase sess.state "resource_id") "resource_id" = none ∧
    stateLookup
      (get_guideline_cache_resource_id f sid (some sess) validate).finalState
      "resource_id" = some (mintResourceId sess.id f) ∧
    ((get_guideline_cache_resource_id f sid (some sess) validate).returned ≠ stale ↔
      mintResourceId sess.id f ≠ stale) := by
  have he := get_resource_id_expired f sid stale sess validate h1
    (fun hc => ValidationResult.noConfusion (h2 ▸ hc))
  rw [he]
  refine ⟨rfl, stateLookup_stateErase_self _ _, ?_, Iff.rfl⟩
  exact stateLookup_stateInsert_self _ _ _

/-- C1 witness: concrete instance of the amended theorem, with a stale
handle that is a genuine registry name and hence distinct from the mint. -/
theorem C1_stale_handle_regeneration_witness :
    stateLookup [("resource_id", "projects/123/cachedContents/xyz")] "resource_id" =
      some "projects/123/cachedContents/xyz" ∧
    (get_guideline_cache_resource_id "jumbo_v1.pdf" "s1"
        (some { id := "s1"
                state := [("resource_id", "projects/123/cachedContents/xyz")] })
        (fun _ => ValidationResult.notFound)).returned =
      mintResourceId "s1" "jumbo_v1.pdf" :=
  ⟨rfl,
    (C1_stale_handle_regeneration "jumbo_v1.pdf" "s1"
      "projects/123/cachedContents/xyz"
      { id := "s1", state := [("resource_id", "projects/123/cachedContents/xyz")] }
      (fun _ => ValidationResult.notFound) rfl rfl).1⟩

/-- C2: a cached handle whose validation succeeds is returned unchanged,
session state is untouched, and a second successive call returns the same
handle again with the state still untouched (idempotent cache hit). -/
theorem C2_idempotent_cache_hit (f sid stored : String) (sess : Session)
    (validate : String → ValidationResult)
    (h1 : stateLookup sess.state "resource_id" = some stored)
    (h2 : validate stored = ValidationResult.valid) :
    (get_guideline_cache_resource_id f sid (some sess) validate).returned = stored ∧
    (get_guideline_cache_resource_id f sid (some sess) validate).finalState =
      sess.state ∧
    (get_guideline_cache_resource_id f sid
        (some { id := sess.id
                state := (get_guideline_cache_resource_id f sid (some sess)
                    validate).finalState })
        validate).returned = stored ∧
    (get_guideline_cache_resource_id f sid
        (some { id := sess.id
                state := (get_guideline_cache_resource_id f sid (some sess)
                    validate).finalState })
        validate).finalState = sess.state := by
  have h := get_resource_id_valid f sid stored sess validate h1 h2
  have h' := get_resource_id_valid f sid stored
    { id := sess.id, state := sess.state } validate h1 h2
  rw [h]
  exact ⟨rfl, rfl, by rw [h'], by rw [h']⟩

/-- C2 witness: concrete cache hit returning the cached value twice. -/
theorem C2_idempotent_cache_hit_witness :
    (get_guideline_cache_resource_id "jumbo_v1.pdf" "s2"
        (some { id := "s2", state := [("resource_id", "cached_handle_1")] })
        (fun _ => ValidationResult.valid)).returned = "cached_handle_1" :=
  (C2_idempotent_cache_hit "jumbo_v1.pdf" "s2" "cached_handle_1"
    { id := "s2", state := [("resource_id", "cached_handle_1")] }
    (fun _ => ValidationResult.valid) rfl rfl).1

/-- C4: with no cached handle, the call returns the handle minted
deterministically from the session id and the filename, stores it in session
state, and any other call hitting the creation branch with the same session
id and filename returns the identical value. -/
theorem C4_deterministic_creation (f sid : String) (sess : Session)
    (validate : String → ValidationResult)
    (h : stateLookup sess.state "resource_id" = none) :
    (get_guideline_cache_resource_id f sid (some sess) validate).returned =
      mintResourceId sess.id f ∧
    stateLookup
      (get_guideline_cache_resource_id f sid (some sess) validate).finalState
      "resource_id" = some (mintResourceId sess.id f) ∧
    (∀ (sess2 : Session) (validate2 : String → ValidationResult),
      stateLookup sess2.state "resource_id" = none → sess2.id = sess.id →
        (get_guideline_cache_resource_id f sid (some sess2) validate2).returned =
          (get_guideline_cache_resource_id f sid (some sess) validate).returned) := by
  have hc := get_resource_id_create f sid sess validate h
  rw [hc]
  refine ⟨rfl, stateLookup_stateInsert_self _ _ _, ?_⟩
  intro sess2 validate2 h2 hid
  rw [get_resource_id_create f sid sess2 validate2 h2, hid]

/-- C4 witness: concrete creation from empty state. -/
theorem C4_deterministic_creation_witness :
    (get_guideline_cache_resource_id "fha_v2.pdf" "s3"
        (some { id := "s3", state := [] })
        (fun _ => ValidationResult.valid)).returned =
      mintResourceId "s3" "fha_v2.pdf" :=
  (C4_deterministic_creation "fha_v2.pdf" "s3" { id := "s3", state := [] }
    (fun _ => ValidationResult.valid) rfl).1

/-- C5: every validation outcome other than success — not-found, ValueError,
or any unexpected exception — is caught inside the call: the stale handle is
removed, a fresh handle is minted, stored and returned, and the caller
always receives a handle string (the embedding is a total function into
CallResult, so no validation error propagates). -/
theorem C5_validation_errors_caught (f sid stored : String) (sess : Session)
    (validate : String → ValidationResult)
    (h1 : stateLookup sess.state "resource_id" = some stored)
    (h2 : validate stored ≠ ValidationResult.valid) :
    (get_guideline_cache_resource_id f sid (some sess) validate).returned =
      mintResourceId sess.id f ∧
    stateLookup (stateErase sess.state "resource_id") "resource_id" = none ∧
    stateLookup
      (get_guideline_cache_resource_id f sid (some sess) validate).finalState
      "resource_id" = some (mintResourceId sess.id f) := by
  have he := get_resource_id_expired f sid stored sess validate h1 h2
  rw [he]
  exact ⟨rfl, stateLookup_stateErase_self _ _, stateLookup_stateInsert_self _ _ _⟩

/-- C5 witness: a wholly unexpected validation exception is absorbed and a
fresh handle is still returned. -/
theorem C5_validation_errors_caught_witness :
    (get_guideline_cache_resource_id "jumbo_v1.pdf" "s4"
        (some { id := "s4", state := [("resource_id", "old_handle")] })
        (fun _ => ValidationResult.unexpected "internal server error")).returned =
      mintResourceId "s4" "jumbo_v1.pdf" :=
  (C5_validation_errors_caught "jumbo_v1.pdf" "s4" "old_handle"
    { id := "s4", state := [("resource_id", "old_handle")] }
    (fun _ => ValidationResult.unexpected "internal server error") rfl
    (fun hc => ValidationResult.noConfusion hc)).1

/-- C9: when the session store holds no session for the triple, the call
creates a session with empty state, then mints, stores and returns a fresh
handle rather than failing on the missing session. -/
theorem C9_missing_session_created (f sid : String)
    (validate : String → ValidationResult) :
    get_guideline_cache_resource_id f sid none validate =
      { returned := mintResourceId sid f
        finalState := [("resource_id", mintResourceId sid f)]
        createdSession := true } :=
  rfl

/-- C3 (counterexample): the claim says a listing failure yields an empty
set.  Concretely, a storage collaborator that raises makes `_list_gcs_files`
return the error, not `Except.ok []`, and `create_loan_initialization_agent`
propagates it instead of building the locator. -/
theorem C3_empty_set_counterexample :
    _list_gcs_files (fun _ _ => Except.error "storage unavailable") GCS_PATH =
      Except.error "storage unavailable" ∧
    _list_gcs_files (fun _ _ => Except.error "storage unavailable") GCS_PATH ≠
      Except.ok [] ∧
    create_loan_initialization_agent (fun _ _ => Except.error "storage unavailable") =
      Except.error "storage unavailable" := by
  refine ⟨rfl, ?_, rfl⟩
  intro h
  rw [show _list_gcs_files (fun _ _ => Except.error "storage unavailable") GCS_PATH =
      Except.error "storage unavailable" from rfl] at h
  exact Except.noConfusion h

/-- C3 (amended): `_list_gcs_files` has no error handler, so when the
storage collaborator raises, the exception propagates out of the catalog
lookup, and `create_loan_initialization_agent` raises during listing rather
than producing the locator (hence no well-formed ambiguity message). -/
theorem C3_listing_error_propagates
    (listBlobs : String → String → Except String (List String)) (e : String)
    (h : ∀ b p, listBlobs b p = Except.error e) :
    (∀ gcs_path_param,
      _list_gcs_files listBlobs gcs_path_param = Except.error e) ∧
    create_loan_initialization_agent listBlobs = Except.error e := by
  have hl : ∀ g, _list_gcs_files listBlobs g = Except.error e := by
    intro g
    unfold _list_gcs_files
    exact h _ _
  refine ⟨hl, ?_⟩
  unfold create_loan_initialization_agent
  rw [hl]

/-- C3 witness: a concrete always-failing collaborator. -/
theorem C3_listing_error_propagates_witness :
    create_loan_initialization_agent (fun _ _ => Except.error "boom") =
      Except.error "boom" :=
  (C3_listing_error_propagates (fun _ _ => Except.error "boom") "boom"
    (fun _ _ => rfl)).2

/-- C6: a call preserves the single-handle invariant.  Starting from a
well-formed session dict, the final state is again a well-formed dict with
at most one `resource_id` binding; every other key is untouched; and the
call either leaves the stored handle unchanged (returning it) or removes it
before storing exactly the one minted replacement. -/
theorem C6_single_handle_invariant (f sid : String) (sess : Session)
    (validate : String → ValidationResult)
    (hnd : (sess.state.map Prod.fst).Nodup) :
    ((get_guideline_cache_resource_id f sid (some sess)
        validate).finalState.map Prod.fst).Nodup ∧
    ((get_guideline_cache_resource_id f sid (some sess)
        validate).finalState.map Prod.fst).count "resource_id" ≤ 1 ∧
    (∀ k, k ≠ "resource_id" →
      stateLookup
        (get_guideline_cache_resource_id f sid (some sess) validate).finalState k =
      stateLookup sess.state k) ∧
    (((get_guideline_cache_resource_id f sid (some sess) validate).finalState =
        sess.state ∧
      stateLookup sess.state "resource_id" =
        some (get_guideline_cache_resource_id f sid (some sess) validate).returned) ∨
      (get_guideline_cache_resource_id f sid (some sess) validate).finalState =
        stateInsert (stateErase sess.state "resource_id") "resource_id"
          (mintResourceId sess.id f)) := by
  cases hcase : stateLookup sess.state "resource_id" with
  | none =>
    rw [get_resource_id_create f sid sess validate hcase]
    have hkeys : ((stateInsert sess.state "resource_id"
        (mintResourceId sess.id f)).map Prod.fst).Nodup :=
      keys_nodup_stateInsert _ _ _ hcase hnd
    refine ⟨hkeys, List.nodup_iff_count_le_one.mp hkeys _, ?_, Or.inr ?_⟩
    · intro k hk
      exact stateLookup_stateInsert_ne _ _ _ _ hk
    · rw [stateErase_eq_of_lookup_none _ _ hcase]
  | some stored =>
    by_cases hv : validate stored = ValidationResult.valid
    · rw [get_resource_id_valid f sid stored sess validate hcase hv]
      refine ⟨hnd, List.nodup_iff_count_le_one.mp hnd _, fun k _ => rfl,
        Or.inl ⟨rfl, ?_⟩⟩
      rfl
    · rw [get_resource_id_expired f sid stored sess validate hcase hv]
      have hkeysErase : ((stateErase sess.state "resource_id").map Prod.fst).Nodup :=
        (keys_stateErase_sublist sess.state "resource_id").nodup hnd
      have hkeys : ((stateInsert (stateErase sess.state "resource_id")
          "resource_id" (mintResourceId sess.id f)).map Prod.fst).Nodup :=
        keys_nodup_stateInsert _ _ _ (stateLookup_stateErase_self _ _) hkeysErase
      refine ⟨hkeys, List.nodup_iff_count_le_one.mp hkeys _, ?_, Or.inr rfl⟩
      intro k hk
      rw [stateLookup_stateInsert_ne _ _ _ _ hk, stateLookup_stateErase_ne _ _ _ hk]

/-- C6 witness: concrete expired-handle call keeping one binding and an
unrelated key intact. -/
theorem C6_single_handle_invariant_witness :
    ((get_guideline_cache_resource_id "jumbo_v1.pdf" "s5"
        (some { id := "s5"
                state := [("resource_id", "old_handle"), ("other_key", "41")] })
        (fun _ => ValidationResult.notFound)).finalState.map
      Prod.fst).count "resource_id" ≤ 1 :=
  (C6_single_handle_invariant "jumbo_v1.pdf" "s5"
    { id := "s5", state := [("resource_id", "old_handle"), ("other_key", "41")] }
    (fun _ => ValidationResult.notFound) (by decide)).2.1

/-- C8: the endpoint body is one try/except over `get_agent_response`: a
completed call yields exactly the success shape with the returned string, a
raised exception yields exactly the error/traceback shape, every outcome
yields one of the two shapes, and no outcome yields both.  The embedding is
a total function, so the endpoint itself never raises. -/
theorem C8_http_response_shape :
    (∀ r, invoke_agent (Except.ok r) = InvokeResponse.success r) ∧
    (∀ e, invoke_agent (Except.error e) =
      InvokeResponse.failure ("An error occurred: " ++ e.msg) e.traceback) ∧
    (∀ outcome, (∃ r, invoke_agent outcome = InvokeResponse.success r) ∨
      (∃ err tb, invoke_agent outcome = InvokeResponse.failure err tb)) ∧
    (∀ outcome r err tb, invoke_agent outcome = InvokeResponse.success r →
      invoke_agent outcome ≠ InvokeResponse.failure err tb) := by
  refine ⟨fun r => rfl, fun e => rfl, ?_, ?_⟩
  · intro outcome
    cases outcome with
    | ok r => exact Or.inl ⟨r, rfl⟩
    | error e => exact Or.inr ⟨_, _, rfl⟩
  · intro outcome r err tb hs hf
    rw [hs] at hf
    exact InvokeResponse.noConfusion hf

/-- C8 witness: a concrete success outcome takes the success shape and not
the failure shape. -/
theorem C8_http_response_shape_witness :
    invoke_agent (Except.ok "all good") = InvokeResponse.success "all good" ∧
    invoke_agent (Except.ok "all good") ≠ InvokeResponse.failure "e" "t" :=
  ⟨C8_http_response_shape.1 "all good",
    C8_http_response_shape.2.2.2 (Except.ok "all good") "all good" "e" "t"
      (C8_http_response_shape.1 "all good")⟩

/-- C10: `run_underwriting_workflow` is total (never raises).  Any error of
the nested run is caught and rendered as the prefixed error string, an empty
event list or an empty parts list yields the fixed fallback string, a last
event with no content yields the caught-AttributeError rendering, and a last
event with text parts yields the first part text — always a string. -/
theorem C10_underwriting_never_raises
    (runDebug : MainAgentSpec → String → String → Except String (List RunnerEvent))
    (resource_id user_query : String) :
    (∀ e, runDebug (create_dynamic_main_agent resource_id) user_query
        ("nested_" ++ resource_id) = Except.error e →
      run_underwriting_workflow runDebug resource_id user_query =
        "An error occurred during underwriting: " ++ e) ∧
    (runDebug (create_dynamic_main_agent resource_id) user_query
        ("nested_" ++ resource_id) = Except.ok [] →
      run_underwriting_workflow runDebug resource_id user_query =
        "No response text found from underwriting workflow.") ∧
    (∀ evs, runDebug (create_dynamic_main_agent resource_id) user_query
        ("nested_" ++ resource_id) = Except.ok (evs ++ [{ content := none }]) →
      run_underwriting_workflow runDebug resource_id user_query =
        "An error occurred during underwriting: " ++ noneContentAttrMsg) ∧
    (∀ evs, runDebug (create_dynamic_main_agent resource_id) user_query
        ("nested_" ++ resource_id) =
          Except.ok (evs ++ [{ content := some { parts := [] } }]) →
      run_underwriting_workflow runDebug resource_id user_query =
        "No response text found from underwriting workflow.") ∧
    (∀ evs p ps, runDebug (create_dynamic_main_agent resource_id) user_query
        ("nested_" ++ resource_id) =
          Except.ok (evs ++ [{ content := some { parts := p :: ps } }]) →
      run_underwriting_workflow runDebug resource_id user_query = p.text) := by
  refine ⟨?_, ?_, ?_, ?_, ?_⟩
  · intro e h
    simp only [run_underwriting_workflow, h]
  · intro h
    simp only [run_underwriting_workflow, h]
    rfl
  · intro evs h
    simp only [run_underwriting_workflow, h, List.getLast?_concat]
  · intro evs h
    simp only [run_underwriting_workflow, h, List.getLast?_concat]
  · intro evs p ps h
    simp only [run_underwriting_workflow, h, List.getLast?_concat]

/-- C10 witness: a nested run that raises is absorbed into the prefixed
error string. -/
theorem C10_underwriting_never_raises_witness :
    run_underwriting_workflow (fun _ _ _ => Except.error "model timeout")
      "rid1" "what is the max DTI" =
      "An error occurred during underwriting: " ++ "model timeout" :=
  (C10_underwriting_never_raises (fun _ _ _ => Except.error "model timeout")
    "rid1" "what is the max DTI").1 "model timeout" rfl

end LoanCopilot
